import Mathlib

/-!
Shallow embedding of the cart and order lifecycle of the Shubharambh
Streamlit app (src/main_code.py) and proofs about it.

The Python session state holds: `cart` (a dict from the string key
`f"{item_id}__{size}"` to a line dict), `final_order_details` (an order
dict or `None`), `final_order_items` (a list of snapshot dicts) and
`page` (one of the strings menu, cart, checkout, confirmation).  We model
the dict as an association list preserving insertion order, money as
`Int` (every price in the program is a Python int), and each page handler
as a pure state transformer.
-/

set_option autoImplicit false
set_option maxRecDepth 8192

/-- A cart line: `{"item_id": ..., "name": ..., "size": ..., "unit_price": ..., "qty": ...}`
(main_code.py line 276). -/
structure CartLine where
  item_id : String
  item_name : String
  size : String
  unit_price : Int
  qty : Int
deriving DecidableEq

/-- The cart: Python dict from the composite string key to a line,
modelled as an insertion-ordered association list. -/
abbrev Cart : Type := List (String × CartLine)

/-- The composite key `f"{item['id']}__{size}"` (line 272). -/
def keyOf (itemId size : String) : String :=
  itemId ++ "__" ++ size

/-- Python dict lookup `key in cart` / `cart[key]` on the association list. -/
def lookupKey (cart : Cart) (k : String) : Option CartLine :=
  match cart with
  | [] => none
  | (k', l) :: rest => if k' = k then some l else lookupKey rest k

/-- In-place update `cart[key]["qty"] += 1` (line 274): the entry keeps its
position, only its quantity changes (dict keys are unique, so touching
every entry with the key is the same as touching the one entry). -/
def incQty : Cart → String → Cart
  | [], _ => []
  | (k', l) :: rest, k =>
      (if k' = k then (k', { l with qty := l.qty + 1 }) else (k', l)) :: incQty rest k

/-- In-place update `cart[key]["qty"] = new_qty` (line 313). -/
def setQty : Cart → String → Int → Cart
  | [], _, _ => []
  | (k', l) :: rest, k, q =>
      (if k' = k then (k', { l with qty := q }) else (k', l)) :: setQty rest k q

/-- Python `del cart[key]` (line 310): removes the entry with that key. -/
def delKey (cart : Cart) (k : String) : Cart :=
  List.filter (fun p => p.1 ≠ k) cart

/-- The add-to-cart handler (lines 271-279): if the key is present,
increment its quantity; else insert a fresh line with quantity 1 and the
price captured now. -/
def addItem (cart : Cart) (itemId nm size : String) (price : Int) : Cart :=
  match lookupKey cart (keyOf itemId size) with
  | some _ => incQty cart (keyOf itemId size)
  | none => cart ++ [(keyOf itemId size,
      { item_id := itemId, item_name := nm, size := size, unit_price := price, qty := 1 })]

/-- The cart-edit handler for one row (lines 306-313): `del` and the
quantity assignment both raise `KeyError` when the key is absent, which we
model as `none`. -/
def setQuantity (cart : Cart) (k : String) (newQty : Int) : Option Cart :=
  if newQty ≤ 0 then
    match lookupKey cart k with
    | some _ => some (delKey cart k)
    | none => none
  else
    match lookupKey cart k with
    | some _ => some (setQty cart k newQty)
    | none => none

/-- `sum(v['unit_price'] * v['qty'] for v in cart.values())` (line 335;
the same computation as line 315 via the Subtotal column of line 297). -/
def cartSubtotal (cart : Cart) : Int :=
  (List.map (fun p => p.2.unit_price * p.2.qty) cart).sum

/-- `DELIVERY_CHARGE = 50` (line 29). -/
def DELIVERY_CHARGE : Int := 50

/-- `delivery_charge = DELIVERY_CHARGE if delivery_type == "Home Delivery" else 0`
(line 339); the radio at line 338 offers exactly "Home Delivery" and "Takeaway". -/
def delivery_charge_of (delivery_type : String) : Int :=
  if delivery_type = "Home Delivery" then DELIVERY_CHARGE else 0

/-- `total = subtotal + delivery_charge` (line 340). -/
def checkout_total (cart : Cart) (delivery_type : String) : Int :=
  cartSubtotal cart + delivery_charge_of delivery_type

/-- One snapshot entry of `final_order_items`
(`{"name": ..., "size": ..., "qty": ..., "subtotal": ...}`, line 364). -/
structure OrderItem where
  item_name : String
  size : String
  qty : Int
  line_subtotal : Int
deriving DecidableEq

/-- The order dict built at line 367-370. `items_str` is the Python
`str(...)` of the snapshot list. -/
structure Order where
  order_id : String
  created_at : String
  customer_name : String
  phone : String
  address : String
  delivery_type : String
  items_str : String
  subtotal : Int
  delivery_charge : Int
  total : Int
deriving DecidableEq

/-- Python `str` of one snapshot dict, as it appears inside `items_str`. -/
def pyStrItem (it : OrderItem) : String :=
  "\x7b\x27name\x27: \x27" ++ it.item_name ++ "\x27, \x27size\x27: \x27" ++ it.size ++
    "\x27, \x27qty\x27: " ++ toString it.qty ++ ", \x27subtotal\x27: " ++
    toString it.line_subtotal ++ "\x7d"

/-- Python `str(st.session_state.final_order_items)` (line 369). -/
def pyStrItems (items : List OrderItem) : String :=
  "[" ++ String.intercalate ", " (List.map pyStrItem items) ++ "]"

/-- `[{"name": v['name'], "size": v['size'], "qty": v['qty'],
"subtotal": v['unit_price'] * v['qty']} for v in cart.values()]`
(lines 363-365): fresh snapshot records copied from the live cart. -/
def snapshotItems (cart : Cart) : List OrderItem :=
  List.map (fun p =>
    { item_name := p.2.item_name, size := p.2.size, qty := p.2.qty,
      line_subtotal := p.2.unit_price * p.2.qty }) cart

/-- Python `f"{x:.2f}"` on an int: every money value in the program is a
Python int, so this is always the digits followed by ".00". -/
def fmt2 (x : Int) : String := toString x ++ ".00"

/-- `build_receipt_text` (lines 202-211).  Note that the itemized section
iterates over `st.session_state.final_order_items`, not over a field of
the `order` argument, so the session list is an explicit input here. -/
def build_receipt_text (order : Order) (final_order_items : List OrderItem) : String :=
  String.intercalate "\n"
    ([ "**RECEIPT - Order ID:** " ++ order.order_id,
       "**Date:** " ++ order.created_at,
       "\n---\n",
       "**Customer:**",
       "  - **Name:** " ++ order.customer_name,
       "  - **Phone:** " ++ order.phone,
       "  - **Address:** " ++ order.address,
       "\n---\n",
       "**Items:**" ] ++
     List.map (fun it =>
       "  - " ++ it.item_name ++ " (" ++ it.size ++ ") | Qty: " ++ toString it.qty ++
         " | Sub: Rs " ++ fmt2 it.line_subtotal) final_order_items ++
     [ "\n---\n",
       "**Subtotal:** Rs " ++ fmt2 order.subtotal,
       "**Delivery charge:** Rs " ++ fmt2 order.delivery_charge,
       "**Total:** Rs " ++ fmt2 order.total,
       "\n---\n",
       "**Thank you for your order!**" ])

/-- The plain text fed line by line into the PDF in
`build_receipt_pdf_bytes` (line 219). -/
def pdf_plain_text (order : Order) (final_order_items : List OrderItem) : String :=
  String.replace (String.replace (build_receipt_text order final_order_items) "**" "")
    "\n---\n" "\n-------------------------\n"

/-- `st.session_state.page`: one of the strings menu, cart, checkout,
confirmation (router at lines 414-421). -/
inductive Page where
  | menu
  | cart
  | checkout
  | confirmation
deriving DecidableEq

/-- The per-session state (lines 226-233). -/
structure Session where
  cart : Cart
  final_order_details : Option Order
  final_order_items : List OrderItem
  page : Page
deriving DecidableEq

/-- Initial session state (lines 226-233): empty cart, no final order,
page menu. -/
def initSession : Session :=
  { cart := [], final_order_details := none, final_order_items := [], page := Page.menu }

/-- What one submission of the checkout form (lines 358-376) produces. -/
structure SubmitOutcome where
  session : Session
  saveCalled : Bool
  orderBuilt : Option Order
  errorShown : Bool
deriving DecidableEq

/-- The checkout submission handler (lines 358-376).  `saveOk` is the
outcome of the `save_order` persistence call; `order_id` and
`created_at` stand for the freshly generated uuid prefix and timestamp.
Validation failure (`not (name and phone and address and agree)`, where
an empty Python string is falsy) shows an error and does nothing else.
Otherwise the snapshot list is stored, the order dict is built, and only
a successful save clears the cart and moves to the confirmation page. -/
def submitCheckout (s : Session) (nm phone address : String) (agree : Bool)
    (delivery_type order_id created_at : String) (saveOk : Bool) : SubmitOutcome :=
  if nm = "" ∨ phone = "" ∨ address = "" ∨ agree = false then
    { session := s, saveCalled := false, orderBuilt := none, errorShown := true }
  else
    let sub := cartSubtotal s.cart
    let charge := delivery_charge_of delivery_type
    let tot := sub + charge
    let items := snapshotItems s.cart
    let order : Order :=
      { order_id := order_id, created_at := created_at, customer_name := nm,
        phone := phone, address := address, delivery_type := delivery_type,
        items_str := pyStrItems items, subtotal := sub, delivery_charge := charge,
        total := tot }
    let s1 := { s with final_order_items := items }
    let s2 := { s1 with
                final_order_details := some order
                cart := ([] : Cart)
                page := Page.confirmation }
    if saveOk then
      { session := s2, saveCalled := true, orderBuilt := some order, errorShown := false }
    else
      { session := s1, saveCalled := true, orderBuilt := some order, errorShown := true }

/-- The receipt text rendered on the confirmation page (line 389): the
order comes from `final_order_details`, the item lines from
`final_order_items`. -/
def receiptOf (s : Session) : Option String :=
  match s.final_order_details with
  | none => none
  | some o => some (build_receipt_text o s.final_order_items)

/-- The PDF plain text rendered on the confirmation page (line 390). -/
def pdfTextOf (s : Session) : Option String :=
  match s.final_order_details with
  | none => none
  | some o => some (pdf_plain_text o s.final_order_items)

/-- What the confirmation page (lines 379-410) renders: either the
missing-order warning with only a back-to-menu button, or the order view
whose receipt text and PDF text are produced by the formatters. -/
inductive ConfirmationView where
  | missingOrder (warning : String)
  | orderView (receipt : String) (pdfText : String)
deriving DecidableEq

/-- The confirmation page body (lines 379-410): when
`final_order_details` is unset it shows the warning and returns before
ever calling `build_receipt_text` or `build_receipt_pdf_bytes`. -/
def page_confirmation_view (s : Session) : ConfirmationView :=
  match s.final_order_details with
  | none => ConfirmationView.missingOrder
      "No order details found. Please place an order first."
  | some o => ConfirmationView.orderView (build_receipt_text o s.final_order_items)
      (pdf_plain_text o s.final_order_items)

/-- The cart mutations available in the UI after an order was placed. -/
inductive CartOp where
  | add (itemId nm size : String) (price : Int)
  | setQ (k : String) (q : Int)
  | clear
deriving DecidableEq

/-- Apply one cart mutation to the session: each touches only the `cart`
field (a failing `setQuantity` leaves the state as the raised `KeyError`
found it). -/
def applyCartOp (s : Session) (op : CartOp) : Session :=
  match op with
  | CartOp.add itemId nm size price => { s with cart := addItem s.cart itemId nm size price }
  | CartOp.setQ k q =>
      match setQuantity s.cart k q with
      | some c => { s with cart := c }
      | none => s
  | CartOp.clear => { s with cart := [] }

/-- Apply a sequence of cart mutations. -/
def applyCartOps (s : Session) (ops : List CartOp) : Session :=
  match ops with
  | [] => s
  | op :: rest => applyCartOps (applyCartOp s op) rest

/-- The explicit user actions that drive the app. -/
inductive UserAction where
  | viewCart
  | addToCart (itemId nm size : String) (price : Int)
  | backToMenu
  | editQty (k : String) (q : Int)
  | goCheckout
  | backToCart
  | submit (nm phone address : String) (agree : Bool)
      (delivery_type order_id created_at : String) (saveOk : Bool)
  | placeAnother
  | backToMenuNoOrder
deriving DecidableEq

/-- The navigation/state transition relation, one constructor per button
the rendered page offers, with the guards under which the source renders
that button:
the View Cart button exists only when the cart is truthy (line 241);
Add to Cart is always available on the menu (line 271);
the cart page always offers Back to Menu (line 289) but returns before
its editor and checkout button when the cart is empty (line 293);
the checkout page offers Back to Cart (line 327) and returns before the
form when the cart is empty (line 331);
the confirmation page offers Place Another Order when an order is
present (lines 406-410) and only Back to Menu when none is (lines
381-386). -/
inductive Step : Session → UserAction → Session → Prop where
  | viewCart (s : Session) : s.page = Page.menu → s.cart ≠ [] →
      Step s UserAction.viewCart { s with page := Page.cart }
  | addToCart (s : Session) (itemId nm size : String) (price : Int) :
      s.page = Page.menu →
      Step s (UserAction.addToCart itemId nm size price)
        { s with cart := addItem s.cart itemId nm size price }
  | backToMenu (s : Session) : s.page = Page.cart →
      Step s UserAction.backToMenu { s with page := Page.menu }
  | editQty (s : Session) (k : String) (q : Int) (c : Cart) :
      s.page = Page.cart → s.cart ≠ [] → setQuantity s.cart k q = some c →
      Step s (UserAction.editQty k q) { s with cart := c }
  | goCheckout (s : Session) : s.page = Page.cart → s.cart ≠ [] →
      Step s UserAction.goCheckout { s with page := Page.checkout }
  | backToCart (s : Session) : s.page = Page.checkout →
      Step s UserAction.backToCart { s with page := Page.cart }
  | submit (s : Session) (nm phone address : String) (agree : Bool)
      (delivery_type order_id created_at : String) (saveOk : Bool) :
      s.page = Page.checkout → s.cart ≠ [] →
      Step s (UserAction.submit nm phone address agree delivery_type order_id created_at saveOk)
        (submitCheckout s nm phone address agree delivery_type order_id created_at saveOk).session
  | placeAnother (s : Session) : s.page = Page.confirmation →
      s.final_order_details ≠ none →
      Step s UserAction.placeAnother
        { s with final_order_details := none, final_order_items := [], page := Page.menu }
  | backToMenuNoOrder (s : Session) : s.page = Page.confirmation →
      s.final_order_details = none →
      Step s UserAction.backToMenuNoOrder { s with page := Page.menu }

/-- The carts reachable from the empty cart by the three cart-mutating
operations (a `setQuantity` step contributes only when it does not raise). -/
inductive CartReach : Cart → Prop where
  | init : CartReach []
  | add (c : Cart) (itemId nm size : String) (price : Int) :
      CartReach c → CartReach (addItem c itemId nm size price)
  | setQ (c : Cart) (k : String) (q : Int) (c' : Cart) :
      CartReach c → setQuantity c k q = some c' → CartReach c'
  | clear (c : Cart) : CartReach c → CartReach []

/-- Decidable check that every line of a cart has quantity at least 1. -/
def cartQtysOK (c : Cart) : Bool :=
  List.all c (fun p => decide ((1 : Int) ≤ p.2.qty))

theorem cartSubtotal_nil : cartSubtotal [] = 0 := rfl

theorem cartSubtotal_cons (p : String × CartLine) (cart : Cart) :
    cartSubtotal (p :: cart) = p.2.unit_price * p.2.qty + cartSubtotal cart := by
  simp [cartSubtotal]

/-- Claim C1: for every cart, the checkout price computation yields a
subtotal equal to the sum over all cart lines of unit price times
quantity (exactly 0 for an empty cart), a delivery charge equal to the
fixed fee of 50 for home delivery and 0 for takeaway, and a total equal
to subtotal plus delivery charge. -/
theorem checkout_pricing_correct :
    (cartSubtotal [] = 0) ∧
    (∀ (p : String × CartLine) (cart : Cart),
      cartSubtotal (p :: cart) = p.2.unit_price * p.2.qty + cartSubtotal cart) ∧
    (delivery_charge_of "Home Delivery" = 50) ∧
    (delivery_charge_of "Takeaway" = 0) ∧
    (∀ (cart : Cart) (dt : String),
      checkout_total cart dt = cartSubtotal cart + delivery_charge_of dt) := by
  refine ⟨rfl, cartSubtotal_cons, rfl, rfl, fun cart dt => rfl⟩

/-- A concrete cart line used by the evaluation witnesses. -/
def demoLine : CartLine :=
  { item_id := "item1", item_name := "Besan Ladoo", size := "250g",
    unit_price := 150, qty := 2 }

/-- A concrete one-line cart used by the evaluation witnesses. -/
def demoCart : Cart := [(keyOf "item1" "250g", demoLine)]

/-- A concrete session sitting on the checkout page. -/
def demoCheckoutSession : Session :=
  { cart := demoCart, final_order_details := none, final_order_items := [],
    page := Page.checkout }

theorem applyCartOp_frame (s : Session) (op : CartOp) :
    (applyCartOp s op).final_order_details = s.final_order_details ∧
    (applyCartOp s op).final_order_items = s.final_order_items ∧
    (applyCartOp s op).page = s.page := by
  cases op with
  | add itemId nm size price => simp [applyCartOp]
  | setQ k q => cases h : setQuantity s.cart k q <;> simp [applyCartOp, h]
  | clear => simp [applyCartOp]

/-- Claim C2: for a checkout submission that passes validation, a
successful save clears the cart and moves to the confirmation page,
while a failed save leaves the cart exactly as it was and stays on the
checkout page. -/
theorem checkout_submit_save_outcome :
    (∀ (s : Session) (nm ph addr dt oid ts : String),
      s.page = Page.checkout → nm ≠ "" → ph ≠ "" → addr ≠ "" →
      (submitCheckout s nm ph addr true dt oid ts true).session.cart = [] ∧
      (submitCheckout s nm ph addr true dt oid ts true).session.page = Page.confirmation) ∧
    (∀ (s : Session) (nm ph addr dt oid ts : String),
      s.page = Page.checkout → nm ≠ "" → ph ≠ "" → addr ≠ "" →
      (submitCheckout s nm ph addr true dt oid ts false).session.cart = s.cart ∧
      (submitCheckout s nm ph addr true dt oid ts false).session.page = Page.checkout) := by
  constructor <;>
    (intro s nm ph addr dt oid ts hp h1 h2 h3
     simp [submitCheckout, h1, h2, h3, hp])

/-- Witness for C2 on a concrete cart, customer and both save outcomes. -/
theorem checkout_submit_save_outcome_witness :
    ((submitCheckout demoCheckoutSession "Asha" "9999999999" "Pune" true
        "Home Delivery" "ab12cd34" "2026-10-12 10:00:00" true).session.cart = [] ∧
     (submitCheckout demoCheckoutSession "Asha" "9999999999" "Pune" true
        "Home Delivery" "ab12cd34" "2026-10-12 10:00:00" true).session.page = Page.confirmation) ∧
    ((submitCheckout demoCheckoutSession "Asha" "9999999999" "Pune" true
        "Home Delivery" "ab12cd34" "2026-10-12 10:00:00" false).session.cart =
          demoCheckoutSession.cart ∧
     (submitCheckout demoCheckoutSession "Asha" "9999999999" "Pune" true
        "Home Delivery" "ab12cd34" "2026-10-12 10:00:00" false).session.page = Page.checkout) :=
  ⟨checkout_submit_save_outcome.1 demoCheckoutSession "Asha" "9999999999" "Pune"
      "Home Delivery" "ab12cd34" "2026-10-12 10:00:00" rfl (by decide) (by decide) (by decide),
   checkout_submit_save_outcome.2 demoCheckoutSession "Asha" "9999999999" "Pune"
      "Home Delivery" "ab12cd34" "2026-10-12 10:00:00" rfl (by decide) (by decide) (by decide)⟩

/-- Claim C3: a checkout submission with an empty name, empty phone,
empty address or unchecked confirmation box only shows an error: the
session is unchanged, no order dict is built and the persistence layer
is never called. -/
theorem incomplete_checkout_no_side_effects :
    ∀ (s : Session) (nm ph addr : String) (agree : Bool) (dt oid ts : String)
      (saveOk : Bool),
      (nm = "" ∨ ph = "" ∨ addr = "" ∨ agree = false) →
      submitCheckout s nm ph addr agree dt oid ts saveOk =
        { session := s, saveCalled := false, orderBuilt := none, errorShown := true } := by
  intro s nm ph addr agree dt oid ts saveOk h
  simp only [submitCheckout, if_pos h]

/-- Witness for C3: an empty name on a concrete session changes nothing. -/
theorem incomplete_checkout_no_side_effects_witness :
    submitCheckout demoCheckoutSession "" "9999999999" "Pune" true "Takeaway"
        "ab12cd34" "2026-10-12 10:00:00" true =
      { session := demoCheckoutSession, saveCalled := false, orderBuilt := none,
        errorShown := true } :=
  incomplete_checkout_no_side_effects demoCheckoutSession "" "9999999999" "Pune" true
    "Takeaway" "ab12cd34" "2026-10-12 10:00:00" true (Or.inl rfl)

/-- Claim C8: the order snapshot is decoupled from the live cart: any
sequence of later cart mutations (add, set-quantity, remove, clear)
leaves the placed order record and its snapshot line items untouched. -/
theorem order_snapshot_immune_to_cart_ops :
    ∀ (ops : List CartOp) (s : Session),
      (applyCartOps s ops).final_order_details = s.final_order_details ∧
      (applyCartOps s ops).final_order_items = s.final_order_items := by
  intro ops
  induction ops with
  | nil => intro s; exact ⟨rfl, rfl⟩
  | cons op rest ih =>
      intro s
      have h := applyCartOp_frame s op
      have h2 := ih (applyCartOp s op)
      exact ⟨h2.1.trans h.1, h2.2.trans h.2.1⟩

/-- Number of cart entries carrying a given key. -/
def countKey (c : Cart) (k : String) : Nat :=
  List.count k (List.map Prod.fst c)

/-- A whole sequence of add-to-cart clicks for one (item, size) choice,
one click per listed price. -/
def applyAdds (itemId nm size : String) : Cart → List Int → Cart
  | c, [] => c
  | c, price :: prices => applyAdds itemId nm size (addItem c itemId nm size price) prices

theorem fst_incQty (c : Cart) (k : String) :
    List.map Prod.fst (incQty c k) = List.map Prod.fst c := by
  induction c with
  | nil => rfl
  | cons p rest ih =>
      obtain ⟨k', l'⟩ := p
      by_cases h : k' = k <;> simp [incQty, h, ih]

theorem fst_setQty (c : Cart) (k : String) (q : Int) :
    List.map Prod.fst (setQty c k q) = List.map Prod.fst c := by
  induction c with
  | nil => rfl
  | cons p rest ih =>
      obtain ⟨k', l'⟩ := p
      by_cases h : k' = k <;> simp [setQty, h, ih]

theorem countKey_incQty (c : Cart) (k k' : String) :
    countKey (incQty c k) k' = countKey c k' := by
  unfold countKey
  rw [fst_incQty]

theorem countKey_append_self (c : Cart) (k : String) (l : CartLine) :
    countKey (c ++ [(k, l)]) k = countKey c k + 1 := by
  unfold countKey
  simp

theorem countKey_eq_zero_of_lookup_none (c : Cart) (k : String) :
    lookupKey c k = none → countKey c k = 0 := by
  induction c with
  | nil => intro _; rfl
  | cons p rest ih =>
      intro h
      obtain ⟨k', l'⟩ := p
      simp only [lookupKey] at h
      by_cases hk : k' = k
      · rw [if_pos hk] at h; cases h
      · rw [if_neg hk] at h
        unfold countKey at ih ⊢
        simp only [List.map_cons, List.count_cons, ih h]
        simp [hk, Ne.symm hk]

theorem lookup_append_self (c : Cart) (k : String) (l : CartLine) :
    lookupKey c k = none → lookupKey (c ++ [(k, l)]) k = some l := by
  induction c with
  | nil => intro _; simp [lookupKey]
  | cons p rest ih =>
      intro h
      obtain ⟨k', l'⟩ := p
      simp only [lookupKey, List.cons_append] at h ⊢
      by_cases hk : k' = k
      · rw [if_pos hk] at h; cases h
      · rw [if_neg hk] at h ⊢
        exact ih h

theorem lookup_incQty (c : Cart) (k : String) :
    lookupKey (incQty c k) k =
      Option.map (fun l => { l with qty := l.qty + 1 }) (lookupKey c k) := by
  induction c with
  | nil => simp [incQty, lookupKey]
  | cons p rest ih =>
      obtain ⟨k', l'⟩ := p
      simp only [incQty]
      by_cases hk : k' = k
      · rw [if_pos hk]
        simp [lookupKey, hk]
      · rw [if_neg hk]
        simp [lookupKey, hk, ih]

theorem lookup_setQty (c : Cart) (k : String) (q : Int) :
    lookupKey (setQty c k q) k =
      Option.map (fun l => { l with qty := q }) (lookupKey c k) := by
  induction c with
  | nil => simp [setQty, lookupKey]
  | cons p rest ih =>
      obtain ⟨k', l'⟩ := p
      simp only [setQty]
      by_cases hk : k' = k
      · rw [if_pos hk]
        simp [lookupKey, hk]
      · rw [if_neg hk]
        simp [lookupKey, hk, ih]

theorem addItem_of_lookup_some (c : Cart) (itemId nm size : String) (price : Int)
    (l : CartLine) (h : lookupKey c (keyOf itemId size) = some l) :
    addItem c itemId nm size price = incQty c (keyOf itemId size) := by
  unfold addItem
  rw [h]

theorem addItem_of_lookup_none (c : Cart) (itemId nm size : String) (price : Int)
    (h : lookupKey c (keyOf itemId size) = none) :
    addItem c itemId nm size price =
      c ++ [(keyOf itemId size,
        { item_id := itemId, item_name := nm, size := size,
          unit_price := price, qty := 1 })] := by
  unfold addItem
  rw [h]

theorem applyAdds_invariant (itemId nm size : String) :
    ∀ (prices : List Int) (c : Cart) (price q : Int),
      lookupKey c (keyOf itemId size) =
        some { item_id := itemId, item_name := nm, size := size,
               unit_price := price, qty := q } →
      lookupKey (applyAdds itemId nm size c prices) (keyOf itemId size) =
        some { item_id := itemId, item_name := nm, size := size,
               unit_price := price, qty := q + (prices.length : Int) } ∧
      countKey (applyAdds itemId nm size c prices) (keyOf itemId size) =
        countKey c (keyOf itemId size) := by
  intro prices
  induction prices with
  | nil =>
      intro c price q h
      simpa [applyAdds] using h
  | cons pr rest ih =>
      intro c price q h
      have hadd : addItem c itemId nm size pr = incQty c (keyOf itemId size) :=
        addItem_of_lookup_some c itemId nm size pr _ h
      have hlook : lookupKey (incQty c (keyOf itemId size)) (keyOf itemId size) =
          some { item_id := itemId, item_name := nm, size := size,
                 unit_price := price, qty := q + 1 } := by
        rw [lookup_incQty, h]
        rfl
      have hrec := ih (incQty c (keyOf itemId size)) price (q + 1) hlook
      constructor
      · rw [applyAdds, hadd, hrec.1]
        congr 1
        simp only [List.length_cons]
        push_cast
        ring_nf
      · rw [applyAdds, hadd, hrec.2, countKey_incQty]

/-- Claim C4: adding a key absent from the cart appends a fresh line with
quantity 1 and the given price; adding a present key increments its
quantity in place without duplicating the line; and after any sequence of
adds for one (item, size) choice the single resulting line has quantity
equal to the number of clicks and the unit price of the first click. -/
theorem addItem_repeat_key_spec :
    (∀ (cart : Cart) (itemId nm size : String) (price : Int),
      lookupKey cart (keyOf itemId size) = none →
      addItem cart itemId nm size price =
        cart ++ [(keyOf itemId size,
          { item_id := itemId, item_name := nm, size := size,
            unit_price := price, qty := 1 })]) ∧
    (∀ (cart : Cart) (itemId nm size : String) (l : CartLine) (price : Int),
      lookupKey cart (keyOf itemId size) = some l →
      addItem cart itemId nm size price = incQty cart (keyOf itemId size) ∧
      lookupKey (addItem cart itemId nm size price) (keyOf itemId size) =
        some { l with qty := l.qty + 1 } ∧
      countKey (addItem cart itemId nm size price) (keyOf itemId size) =
        countKey cart (keyOf itemId size)) ∧
    (∀ (cart : Cart) (itemId nm size : String) (price : Int) (prices : List Int),
      lookupKey cart (keyOf itemId size) = none →
      lookupKey (applyAdds itemId nm size (addItem cart itemId nm size price) prices)
          (keyOf itemId size) =
        some { item_id := itemId, item_name := nm, size := size, unit_price := price,
               qty := 1 + (prices.length : Int) } ∧
      countKey (applyAdds itemId nm size (addItem cart itemId nm size price) prices)
          (keyOf itemId size) = 1) := by
  refine ⟨addItem_of_lookup_none, ?_, ?_⟩
  · intro cart itemId nm size l price h
    have hadd := addItem_of_lookup_some cart itemId nm size price l h
    refine ⟨hadd, ?_, ?_⟩
    · rw [hadd, lookup_incQty, h]
      rfl
    · rw [hadd, countKey_incQty]
  · intro cart itemId nm size price prices h
    have hadd := addItem_of_lookup_none cart itemId nm size price h
    have hlook : lookupKey (addItem cart itemId nm size price) (keyOf itemId size) =
        some { item_id := itemId, item_name := nm, size := size,
               unit_price := price, qty := 1 } := by
      rw [hadd]
      exact lookup_append_self cart (keyOf itemId size) _ h
    have hrec := applyAdds_invariant itemId nm size prices
      (addItem cart itemId nm size price) price 1 hlook
    refine ⟨hrec.1, ?_⟩
    rw [hrec.2, hadd, countKey_append_self, countKey_eq_zero_of_lookup_none cart _ h]

/-- Witness for C4: three clicks on (item1, 250g) starting from the
empty cart yield one line of quantity 3 at the first price. -/
theorem addItem_repeat_key_spec_witness :
    (addItem [] "item1" "Besan Ladoo" "250g" 150 =
      [(keyOf "item1" "250g",
        { item_id := "item1", item_name := "Besan Ladoo", size := "250g",
          unit_price := 150, qty := 1 })]) ∧
    (addItem demoCart "item1" "Besan Ladoo" "250g" 150 =
        incQty demoCart (keyOf "item1" "250g") ∧
      lookupKey (addItem demoCart "item1" "Besan Ladoo" "250g" 150) (keyOf "item1" "250g") =
        some { demoLine with qty := demoLine.qty + 1 } ∧
      countKey (addItem demoCart "item1" "Besan Ladoo" "250g" 150) (keyOf "item1" "250g") =
        countKey demoCart (keyOf "item1" "250g")) ∧
    (lookupKey
        (applyAdds "item1" "Besan Ladoo" "250g"
          (addItem [] "item1" "Besan Ladoo" "250g" 150) [150, 150]) (keyOf "item1" "250g") =
      some { item_id := "item1", item_name := "Besan Ladoo", size := "250g",
             unit_price := 150,
             qty := 1 + (([150, 150] : List Int).length : Int) } ∧
     countKey
        (applyAdds "item1" "Besan Ladoo" "250g"
          (addItem [] "item1" "Besan Ladoo" "250g" 150) [150, 150]) (keyOf "item1" "250g") = 1) :=
  ⟨addItem_repeat_key_spec.1 [] "item1" "Besan Ladoo" "250g" 150 rfl,
   addItem_repeat_key_spec.2.1 demoCart "item1" "Besan Ladoo" "250g" demoLine 150 (by decide),
   addItem_repeat_key_spec.2.2 [] "item1" "Besan Ladoo" "250g" 150 [150, 150] rfl⟩

theorem lookup_delKey (c : Cart) (k : String) :
    lookupKey (delKey c k) k = none := by
  induction c with
  | nil => rfl
  | cons p rest ih =>
      obtain ⟨k', l'⟩ := p
      by_cases hk : k' = k
      · simpa [delKey, List.filter_cons, hk] using ih
      · simpa [delKey, List.filter_cons, lookupKey, hk] using ih

theorem cartSubtotal_delKey (c : Cart) (k : String) (l : CartLine) :
    List.Nodup (List.map Prod.fst c) → lookupKey c k = some l →
    cartSubtotal (delKey c k) = cartSubtotal c - l.unit_price * l.qty := by
  induction c with
  | nil => intro _ h; cases h
  | cons p rest ih =>
      intro hnd h
      obtain ⟨k', l'⟩ := p
      rw [List.map_cons, List.nodup_cons] at hnd
      simp only [lookupKey] at h
      by_cases hk : k' = k
      · rw [if_pos hk] at h
        obtain rfl : l' = l := Option.some.inj h
        have hnotin : ∀ a ∈ rest, a.1 ≠ k := by
          intro a ha hak
          apply hnd.1
          rw [hk, ← hak]
          exact List.mem_map.mpr ⟨a, ha, rfl⟩
        have hdel : delKey ((k', l') :: rest) k = rest := by
          simp only [delKey, List.filter_cons]
          simp [hk]
          intro a b hab
          exact hnotin (a, b) hab
        rw [hdel, cartSubtotal_cons]
        ring
      · rw [if_neg hk] at h
        have hdel : delKey ((k', l') :: rest) k = (k', l') :: delKey rest k := by
          simp [delKey, List.filter_cons, hk]
        rw [hdel, cartSubtotal_cons, cartSubtotal_cons, ih hnd.2 h]
        ring

/-- Counterexample to claim C5 as stated: on a key that is absent (here:
any key of the empty cart), `setQuantity` is not an idempotent no-op —
the Python `del st.session_state.cart[key]` raises `KeyError`, modelled
as `none`, instead of returning the cart unchanged. -/
theorem setQuantity_absent_key_errors :
    setQuantity ([] : Cart) (keyOf "item1" "250g") 0 = none ∧
    setQuantity ([] : Cart) (keyOf "item1" "250g") 0 ≠ some ([] : Cart) := by
  constructor
  · rfl
  · decide

/-- Claim C5 (amended): on a key absent from the cart, `setQuantity`
raises `KeyError` (modelled `none`) rather than acting idempotently; on a
key present in the cart, a new quantity of 0 or below removes the line
entirely (so a later subtotal excludes it), and a new quantity of at
least 1 sets that line's quantity. -/
theorem setQuantity_present_key_spec :
    (∀ (cart : Cart) (k : String) (q : Int),
      lookupKey cart k = none → setQuantity cart k q = none) ∧
    (∀ (cart : Cart) (k : String) (l : CartLine) (q : Int),
      lookupKey cart k = some l → q ≤ 0 → List.Nodup (List.map Prod.fst cart) →
      setQuantity cart k q = some (delKey cart k) ∧
      lookupKey (delKey cart k) k = none ∧
      cartSubtotal (delKey cart k) = cartSubtotal cart - l.unit_price * l.qty) ∧
    (∀ (cart : Cart) (k : String) (l : CartLine) (q : Int),
      lookupKey cart k = some l → 1 ≤ q →
      setQuantity cart k q = some (setQty cart k q) ∧
      lookupKey (setQty cart k q) k = some { l with qty := q }) := by
  refine ⟨?_, ?_, ?_⟩
  · intro cart k q h
    unfold setQuantity
    split <;> rw [h]
  · intro cart k l q h hq hnd
    refine ⟨?_, lookup_delKey cart k, cartSubtotal_delKey cart k l hnd h⟩
    unfold setQuantity
    rw [if_pos hq, h]
  · intro cart k l q h hq
    constructor
    · unfold setQuantity
      rw [if_neg (by omega), h]
    · rw [lookup_setQty, h]
      rfl

/-- Witness for C5 on concrete carts: the error on an absent key, the
removal with its subtotal, and a quantity update. -/
theorem setQuantity_present_key_spec_witness :
    (setQuantity ([] : Cart) "item2__500g" 7 = none) ∧
    (setQuantity demoCart (keyOf "item1" "250g") 0 =
        some (delKey demoCart (keyOf "item1" "250g")) ∧
      lookupKey (delKey demoCart (keyOf "item1" "250g")) (keyOf "item1" "250g") = none ∧
      cartSubtotal (delKey demoCart (keyOf "item1" "250g")) =
        cartSubtotal demoCart - demoLine.unit_price * demoLine.qty) ∧
    (setQuantity demoCart (keyOf "item1" "250g") 5 =
        some (setQty demoCart (keyOf "item1" "250g") 5) ∧
      lookupKey (setQty demoCart (keyOf "item1" "250g") 5) (keyOf "item1" "250g") =
        some { demoLine with qty := 5 }) :=
  ⟨setQuantity_present_key_spec.1 [] "item2__500g" 7 rfl,
   setQuantity_present_key_spec.2.1 demoCart (keyOf "item1" "250g") demoLine 0
     (by decide) (by decide) (by decide),
   setQuantity_present_key_spec.2.2 demoCart (keyOf "item1" "250g") demoLine 5
     (by decide) (by decide)⟩

theorem incQty_qty_pos (c : Cart) (k : String)
    (h : ∀ p ∈ c, (1 : Int) ≤ p.2.qty) :
    ∀ p ∈ incQty c k, (1 : Int) ≤ p.2.qty := by
  induction c with
  | nil => intro p hp; cases hp
  | cons hd rest ih =>
      obtain ⟨k', l'⟩ := hd
      intro p hp
      simp only [incQty] at hp
      rcases List.mem_cons.mp hp with h1 | h2
      · have hhd := h (k', l') (List.mem_cons_self _ _)
        by_cases hk : k' = k
        · rw [if_pos hk] at h1
          subst h1
          simp only at hhd ⊢
          omega
        · rw [if_neg hk] at h1
          subst h1
          exact hhd
      · exact ih (fun p hp => h p (List.mem_cons_of_mem _ hp)) p h2

theorem setQty_qty_pos (c : Cart) (k : String) (q : Int) (hq : 1 ≤ q)
    (h : ∀ p ∈ c, (1 : Int) ≤ p.2.qty) :
    ∀ p ∈ setQty c k q, (1 : Int) ≤ p.2.qty := by
  induction c with
  | nil => intro p hp; cases hp
  | cons hd rest ih =>
      obtain ⟨k', l'⟩ := hd
      intro p hp
      simp only [setQty] at hp
      rcases List.mem_cons.mp hp with h1 | h2
      · have hhd := h (k', l') (List.mem_cons_self _ _)
        by_cases hk : k' = k
        · rw [if_pos hk] at h1
          subst h1
          simpa using hq
        · rw [if_neg hk] at h1
          subst h1
          exact hhd
      · exact ih (fun p hp => h p (List.mem_cons_of_mem _ hp)) p h2

theorem addItem_qty_pos (c : Cart) (itemId nm size : String) (price : Int)
    (h : ∀ p ∈ c, (1 : Int) ≤ p.2.qty) :
    ∀ p ∈ addItem c itemId nm size price, (1 : Int) ≤ p.2.qty := by
  unfold addItem
  cases hl : lookupKey c (keyOf itemId size) with
  | some l => exact incQty_qty_pos c _ h
  | none =>
      intro p hp
      rcases List.mem_append.mp hp with h1 | h2
      · exact h p h1
      · rw [List.mem_singleton.mp h2]

theorem setQuantity_qty_pos (c c' : Cart) (k : String) (q : Int)
    (hs : setQuantity c k q = some c')
    (h : ∀ p ∈ c, (1 : Int) ≤ p.2.qty) :
    ∀ p ∈ c', (1 : Int) ≤ p.2.qty := by
  unfold setQuantity at hs
  by_cases hq : q ≤ 0
  · rw [if_pos hq] at hs
    cases hl : lookupKey c k with
    | none => rw [hl] at hs; cases hs
    | some l =>
        rw [hl] at hs
        obtain rfl := Option.some.inj hs
        intro p hp
        exact h p (List.mem_filter.mp hp).1
  · rw [if_neg hq] at hs
    cases hl : lookupKey c k with
    | none => rw [hl] at hs; cases hs
    | some l =>
        rw [hl] at hs
        obtain rfl := Option.some.inj hs
        exact setQty_qty_pos c k q (by omega) h

/-- Claim C6: every cart reachable from the empty cart by any sequence
of add-item, set-quantity and clear operations holds only lines with
quantity at least 1. -/
theorem reachable_cart_qty_positive :
    ∀ (c : Cart), CartReach c → cartQtysOK c = true := by
  have key : ∀ (c : Cart), CartReach c → ∀ p ∈ c, (1 : Int) ≤ p.2.qty := by
    intro c h
    induction h with
    | init => intro p hp; cases hp
    | add c itemId nm size price _ ih => exact addItem_qty_pos c itemId nm size price ih
    | setQ c k q c' _ hs ih => exact setQuantity_qty_pos c c' k q hs ih
    | clear c _ _ => intro p hp; cases hp
  intro c h
  simp only [cartQtysOK, List.all_eq_true]
  intro p hp
  simpa using key c h p hp

/-- Witness for C6: a concrete reachable cart (two adds, one quantity
edit) passes the decidable positivity check. -/
theorem reachable_cart_qty_positive_witness :
    cartQtysOK
      (addItem (addItem [] "item1" "Besan Ladoo" "250g" 150)
        "item1" "Besan Ladoo" "250g" 150) = true :=
  reachable_cart_qty_positive _
    (CartReach.add _ "item1" "Besan Ladoo" "250g" 150
      (CartReach.add _ "item1" "Besan Ladoo" "250g" 150 CartReach.init))

/-- The snapshot list of the demo cart. -/
def demoItems : List OrderItem := snapshotItems demoCart

/-- A concrete placed order matching the demo cart with takeaway. -/
def demoOrder : Order :=
  { order_id := "ab12cd34", created_at := "2026-10-12 10:00:00",
    customer_name := "Asha", phone := "9999999999", address := "Pune",
    delivery_type := "Takeaway", items_str := pyStrItems demoItems,
    subtotal := 300, delivery_charge := 0, total := 300 }

/-- The session right after the demo order was placed. -/
def demoConfirmSession : Session :=
  { cart := [], final_order_details := some demoOrder,
    final_order_items := demoItems, page := Page.confirmation }

/-- The same order but with an emptied session snapshot list. -/
def demoConfirmSessionNoItems : Session :=
  { demoConfirmSession with final_order_items := [] }

/-- The same order and snapshot list but different cart and page. -/
def demoConfirmSessionOtherPage : Session :=
  { demoConfirmSession with cart := demoCart, page := Page.menu }

/-- Counterexample to claim C7 as stated: the receipt is not a pure
function of the Order argument alone.  Two sessions holding the
identical order but different `final_order_items` lists render different
receipt texts, because `build_receipt_text` reads
`st.session_state.final_order_items` (line 206) rather than the order. -/
theorem receipt_depends_on_session_items :
    demoConfirmSession.final_order_details = demoConfirmSessionNoItems.final_order_details ∧
    receiptOf demoConfirmSession ≠ receiptOf demoConfirmSessionNoItems := by
  refine ⟨rfl, ?_⟩
  decide

/-- Claim C7 (amended): the receipt and PDF plain text are deterministic
pure functions of the final order together with the session's
`final_order_items` snapshot list: any two sessions agreeing on those
two fields render byte-identical text, whatever their cart and page. -/
theorem receipt_deterministic_given_session_items :
    ∀ (s1 s2 : Session),
      s1.final_order_details = s2.final_order_details →
      s1.final_order_items = s2.final_order_items →
      receiptOf s1 = receiptOf s2 ∧ pdfTextOf s1 = pdfTextOf s2 := by
  intro s1 s2 h1 h2
  unfold receiptOf pdfTextOf
  rw [h1, h2]
  exact ⟨rfl, rfl⟩

/-- Witness for C7 (amended) on two concrete sessions differing in cart
and page. -/
theorem receipt_deterministic_given_session_items_witness :
    receiptOf demoConfirmSession = receiptOf demoConfirmSessionOtherPage ∧
    pdfTextOf demoConfirmSession = pdfTextOf demoConfirmSessionOtherPage :=
  receipt_deterministic_given_session_items demoConfirmSession demoConfirmSessionOtherPage
    rfl rfl

theorem submitCheckout_page (s : Session) (nm ph addr : String) (agree : Bool)
    (dt oid ts : String) (saveOk : Bool) :
    (submitCheckout s nm ph addr agree dt oid ts saveOk).session.page = s.page ∨
    (submitCheckout s nm ph addr agree dt oid ts saveOk).session.page = Page.confirmation := by
  unfold submitCheckout
  split
  · exact Or.inl rfl
  · cases saveOk
    · exact Or.inl rfl
    · exact Or.inr rfl

/-- Claim C9: the navigation state machine starts in Menu; the view-cart
transition goes from Menu to Cart and is available only with a non-empty
cart; the checkout transition goes from Cart to Checkout and requires a
non-empty cart; place-another goes from Confirmation to Menu and clears
the final-order record; and every step either keeps the page or moves
along one of the edges of the specified transition table. -/
theorem navigation_state_machine_spec :
    (initSession.page = Page.menu) ∧
    (∀ (s s' : Session), Step s UserAction.viewCart s' →
      s.page = Page.menu ∧ s'.page = Page.cart ∧ s.cart ≠ []) ∧
    (∀ (s s' : Session), Step s UserAction.goCheckout s' →
      s.page = Page.cart ∧ s'.page = Page.checkout ∧ s.cart ≠ []) ∧
    (∀ (s s' : Session), Step s UserAction.placeAnother s' →
      s.page = Page.confirmation ∧ s'.page = Page.menu ∧
      s'.final_order_details = none ∧ s'.final_order_items = []) ∧
    (∀ (s : Session) (a : UserAction) (s' : Session), Step s a s' →
      s'.page = s.page ∨
      (s.page = Page.menu ∧ s'.page = Page.cart) ∨
      (s.page = Page.cart ∧ s'.page = Page.menu) ∨
      (s.page = Page.cart ∧ s'.page = Page.checkout) ∨
      (s.page = Page.checkout ∧ s'.page = Page.cart) ∨
      (s.page = Page.checkout ∧ s'.page = Page.confirmation) ∨
      (s.page = Page.confirmation ∧ s'.page = Page.menu)) := by
  refine ⟨rfl, ?_, ?_, ?_, ?_⟩
  · intro s s' h
    cases h with
    | viewCart h1 h2 => exact ⟨h1, rfl, h2⟩
  · intro s s' h
    cases h with
    | goCheckout h1 h2 => exact ⟨h1, rfl, h2⟩
  · intro s s' h
    cases h with
    | placeAnother h1 h2 => exact ⟨h1, rfl, rfl, rfl⟩
  · intro s a s' h
    cases h with
    | viewCart h1 h2 => exact Or.inr (Or.inl ⟨h1, rfl⟩)
    | addToCart itemId nm size price h1 => exact Or.inl rfl
    | backToMenu h1 => exact Or.inr (Or.inr (Or.inl ⟨h1, rfl⟩))
    | editQty k q c h1 h2 h3 => exact Or.inl rfl
    | goCheckout h1 h2 => exact Or.inr (Or.inr (Or.inr (Or.inl ⟨h1, rfl⟩)))
    | backToCart h1 => exact Or.inr (Or.inr (Or.inr (Or.inr (Or.inl ⟨h1, rfl⟩))))
    | submit nm ph addr agree dt oid ts saveOk h1 h2 =>
        rcases submitCheckout_page s nm ph addr agree dt oid ts saveOk with hpg | hpg
        · exact Or.inl hpg
        · exact Or.inr (Or.inr (Or.inr (Or.inr (Or.inr (Or.inl ⟨h1, hpg⟩)))))
    | placeAnother h1 h2 =>
        exact Or.inr (Or.inr (Or.inr (Or.inr (Or.inr (Or.inr ⟨h1, rfl⟩)))))
    | backToMenuNoOrder h1 h2 =>
        exact Or.inr (Or.inr (Or.inr (Or.inr (Or.inr (Or.inr ⟨h1, rfl⟩)))))

/-- A concrete menu-page session with a non-empty cart. -/
def demoMenuSession : Session :=
  { cart := demoCart, final_order_details := none, final_order_items := [],
    page := Page.menu }

/-- The same session after the view-cart transition. -/
def demoCartPageSession : Session :=
  { demoMenuSession with page := Page.cart }

/-- The confirmation session after the place-another transition. -/
def demoAfterPlaceAnother : Session :=
  { demoConfirmSession with
    final_order_details := none
    final_order_items := []
    page := Page.menu }

/-- Witness for C9: the initial page, plus one concrete instance of each
guarded transition clause, all via the state-machine theorem. -/
theorem navigation_state_machine_spec_witness :
    (initSession.page = Page.menu) ∧
    (demoMenuSession.page = Page.menu ∧
      ({ demoMenuSession with page := Page.cart } : Session).page = Page.cart ∧
      demoMenuSession.cart ≠ []) ∧
    (demoCartPageSession.page = Page.cart ∧
      ({ demoCartPageSession with page := Page.checkout } : Session).page = Page.checkout ∧
      demoCartPageSession.cart ≠ []) ∧
    (demoConfirmSession.page = Page.confirmation ∧
      demoAfterPlaceAnother.page = Page.menu ∧
      demoAfterPlaceAnother.final_order_details = none ∧
      demoAfterPlaceAnother.final_order_items = []) :=
  ⟨navigation_state_machine_spec.1,
   navigation_state_machine_spec.2.1 demoMenuSession _
     (Step.viewCart demoMenuSession rfl (by decide)),
   navigation_state_machine_spec.2.2.1 demoCartPageSession _
     (Step.goCheckout demoCartPageSession rfl (by decide)),
   navigation_state_machine_spec.2.2.2.1 demoConfirmSession _
     (Step.placeAnother demoConfirmSession rfl (by decide))⟩

/-- A session on the confirmation page with no final order recorded. -/
def demoNoOrderSession : Session :=
  { cart := [], final_order_details := none, final_order_items := [],
    page := Page.confirmation }

/-- Claim C10: on the confirmation page with `final_order_details`
unset, the page renders only the warning view — so neither the receipt
formatter nor the PDF builder is ever applied to the missing order — and
the only step the session offers is the back-to-menu transition. -/
theorem confirmation_missing_order_safe :
    ∀ (s : Session), s.page = Page.confirmation → s.final_order_details = none →
      page_confirmation_view s =
        ConfirmationView.missingOrder
          "No order details found. Please place an order first." ∧
      (∀ (a : UserAction) (s' : Session), Step s a s' →
        a = UserAction.backToMenuNoOrder ∧ s' = { s with page := Page.menu }) := by
  intro s hp hd
  constructor
  · unfold page_confirmation_view
    rw [hd]
  · intro a s' h
    cases h <;> simp_all

/-- Witness for C10: on a concrete no-order confirmation session the
warning view is rendered and the back-to-menu step is the one offered. -/
theorem confirmation_missing_order_safe_witness :
    page_confirmation_view demoNoOrderSession =
      ConfirmationView.missingOrder
        "No order details found. Please place an order first." ∧
    (UserAction.backToMenuNoOrder = UserAction.backToMenuNoOrder ∧
      ({ demoNoOrderSession with page := Page.menu } : Session) =
        { demoNoOrderSession with page := Page.menu }) :=
  ⟨(confirmation_missing_order_safe demoNoOrderSession rfl rfl).1,
   (confirmation_missing_order_safe demoNoOrderSession rfl rfl).2
     UserAction.backToMenuNoOrder { demoNoOrderSession with page := Page.menu }
     (Step.backToMenuNoOrder demoNoOrderSession rfl rfl)⟩
